import Mathlib

/-!
Verification of the FlyWJ workout-logging bot (src/FlyWJ.py).

The per-user mutable `context.user_data` dictionary is embedded as the
`UserData` structure; each Telegram handler becomes a pure function
`... → UserData → UserData × List Msg` (the returned list models the
outbound `reply_text` / `edit_message_text` / `send_message` calls, in
order).  Every handler begins by setting `last_activity_ts := now`,
mirroring `_reset_inactivity_timer`'s `_touch_activity`; the timer
scheduling itself is not part of the state, but the body of the timer
worker is embedded as `inactivity_worker_fire`.

Python string primitives used by the source (`str.strip`, `str.lower`,
`str.replace`, `str.isdigit`, `int(...)`, `float(...)`) are embedded as
executable functions over `List Char` (ASCII scope, which covers every
string the program manipulates).
-/

/-- Python `str.strip()` on a character list: drop leading and trailing
whitespace. -/
def pyStripList (l : List Char) : List Char :=
  ((l.dropWhile Char.isWhitespace).reverse.dropWhile Char.isWhitespace).reverse

/-- Python `str.strip()`. -/
def pyStrip (s : String) : String :=
  String.mk (pyStripList s.toList)

/-- Python `str.isdigit()` (ASCII): non-empty and all decimal digits. -/
def pyIsdigit (l : List Char) : Bool :=
  !l.isEmpty && l.all Char.isDigit

/-- Value of a decimal digit string. -/
def digitsVal (l : List Char) : Nat :=
  l.foldl (fun n c => n * 10 + (c.toNat - 48)) 0

/-- Tail of a Python integer-literal digit run: digits with single
underscores allowed only between digits. -/
def intDigitsTail : List Char → Bool
  | [] => true
  | c :: rest =>
    if c = '_' then
      match rest with
      | [] => false
      | d :: rest2 => d.isDigit && intDigitsTail rest2
    else c.isDigit && intDigitsTail rest

/-- A Python integer-literal digit run: non-empty, starts with a digit,
underscores only between digits. -/
def intDigitsOk : List Char → Bool
  | [] => false
  | c :: rest => c.isDigit && intDigitsTail rest

/-- Python `int(s)`: optional surrounding whitespace, optional sign, then a
digit run (with underscores between digits). Returns `none` where Python
raises `ValueError`. -/
def pyIntParse (s : String) : Option Int :=
  let l := (pyStrip s).toList
  match l with
  | '+' :: r => if intDigitsOk r then some (Int.ofNat (digitsVal (r.filter (fun c => c ≠ '_')))) else none
  | '-' :: r => if intDigitsOk r then some (-(Int.ofNat (digitsVal (r.filter (fun c => c ≠ '_'))))) else none
  | _ => if intDigitsOk l then some (Int.ofNat (digitsVal (l.filter (fun c => c ≠ '_')))) else none

/-- `_is_int` from the source: `int(s)` succeeds. -/
def _is_int (s : String) : Bool :=
  (pyIntParse s).isSome

/-- Split a list at the first occurrence of `c`; the pair of the part
before and the part after (the occurrence itself removed).  Models
Python `t.split(c, 1)` when `c` occurs in `t`. -/
def splitFirstAt (c : Char) : List Char → List Char × List Char
  | [] => ([], [])
  | a :: rest =>
    if a = c then ([], rest)
    else
      let p := splitFirstAt c rest
      (a :: p.1, p.2)

/-- Mantissa of a Python float literal: digit run, optionally with a dot
before, after, or inside. -/
def mantissaOk (l : List Char) : Bool :=
  if '.' ∈ l then
    let p := splitFirstAt '.' l
    if p.1 = [] then intDigitsOk p.2
    else intDigitsOk p.1 && (p.2.isEmpty || intDigitsOk p.2)
  else intDigitsOk l

/-- Exponent tail of a Python float literal: optional sign then digit run. -/
def expTailOk (l : List Char) : Bool :=
  match l with
  | '+' :: r => intDigitsOk r
  | '-' :: r => intDigitsOk r
  | _ => intDigitsOk l

/-- `_is_number_like` from the source: `float(s.strip())` succeeds
(ASCII scope: optional sign, decimal mantissa, optional exponent, or the
special words inf / infinity / nan). -/
def _is_number_like (s : String) : Bool :=
  let l0 := (pyStrip s).toList.map Char.toLower
  let l := match l0 with
    | '+' :: r => r
    | '-' :: r => r
    | _ => l0
  if l = ['i', 'n', 'f'] || l = ['i', 'n', 'f', 'i', 'n', 'i', 't', 'y'] || l = ['n', 'a', 'n'] then
    true
  else if 'e' ∈ l then
    let p := splitFirstAt 'e' l
    mantissaOk p.1 && expTailOk p.2
  else mantissaOk l

/-- The normalisation `_parse_set_input` applies before splitting:
`text.strip().lower().replace(" ", "").replace("x", "@")`. -/
def _normalize_set_text (s : String) : List Char :=
  (((pyStrip s).toList.map Char.toLower).filter (fun c => c ≠ ' ')).map
    (fun c => if c = 'x' then '@' else c)

/-- `_parse_set_input` from the source.  Accepts `6@60`, `6 @ 60`, `6x60`;
returns `(reps, weight)` or `none`. -/
def _parse_set_input (text : String) : Option (Nat × String) :=
  let t := _normalize_set_text text
  if '@' ∈ t then
    let reps_s := (splitFirstAt '@' t).1
    let weight_s := (splitFirstAt '@' t).2
    if pyIsdigit reps_s then
      let reps := digitsVal reps_s
      let weight := pyStrip (String.mk weight_s)
      if reps = 0 ∨ reps > 200 ∨ weight = "" then none
      else some (reps, weight)
    else none
  else none

/-! ## Data model -/

/-- `DAY_CARDIO` constant. -/
def DAY_CARDIO : String := "Post-gym cardio"

/-- `ONBOARDING_ASK_NAME` constant. -/
def ONBOARDING_ASK_NAME : String := "ask_name"

/-- `INACTIVITY_SECONDS` constant (production value). -/
def INACTIVITY_SECONDS : Nat := 10800

def CB_RUN : String := "log_run"
def CB_GYM : String := "log_gym"
def CB_OTHER : String := "log_other"
def CB_BODY_CHEST : String := "gym_body_chest"
def CB_BODY_BACK : String := "gym_body_back"
def CB_BODY_LEGS : String := "gym_body_legs"
def CB_BODY_ABS : String := "gym_body_abs"
def CB_BODY_CARDIO : String := "gym_body_cardio"
def CB_EQ_DUMBBELL : String := "gym_eq_dumbbell"
def CB_EQ_BARBELL : String := "gym_eq_barbell"
def CB_EQ_MACHINE : String := "gym_eq_machine"
def CB_EQ_CABLE : String := "gym_eq_cable"
def CB_EQ_BODYWEIGHT : String := "gym_eq_bodyweight"
def CB_GYM_CONTINUE : String := "gym_continue"
def CB_GYM_END : String := "gym_end"
def CB_POST_CONTINUE : String := "post_continue"
def CB_POST_NEW_DAY : String := "post_new_day"
def CB_CARDIO_INCLINE : String := "cardio_incline"
def CB_CARDIO_FLAT : String := "cardio_flat"

/-- A finalized entry of a gym session (the dicts appended to
`gym_session["entries"]`). -/
inductive Entry where
  | lift (equipment exercise compact : String)
  | cardio (text : String) (mode : Option String) (degree : Option String) (speed : String)
  deriving DecidableEq, Repr

/-- The `gym_session` dict. -/
structure GymSession where
  date : String
  day : Option String := none
  entries : List Entry := []
  deriving DecidableEq, Repr

/-- The `gym_wizard` dict.  `on_gym_equipment_choice` creates it holding
only a `step` key; the remaining fields default to the values Python's
`dict.get` would report for the missing keys (and are all filled in by
`_wizard_init` before they are read). -/
structure GymWizard where
  step : String
  exercise : String := ""
  sets : Option Nat := none
  reps : List Nat := []
  weights : List String := []
  deriving DecidableEq, Repr

/-- The `cardio_wizard` dict (created first with only a `step` key). -/
structure CardioWizard where
  step : String
  mode : Option String := none
  degree : Option String := none
  speed : Option String := none
  deriving DecidableEq, Repr

/-- A quick-log record appended to `user_data["logs"]`. -/
structure QuickLog where
  activity : String
  details : String
  ts : String
  deriving DecidableEq, Repr

/-- The per-user `context.user_data` dictionary.  A key that may be absent
is an `Option`; `last_activity_ts` is read with `.get(..., 0)` in the
source, so an absent key is embedded as the value `0`. -/
structure UserData where
  name : Option String := none
  onboarding : Option String := none
  pending_log_activity : Option String := none
  gym_body_part : Option String := none
  gym_equipment : Option String := none
  gym_wizard : Option GymWizard := none
  cardio_wizard : Option CardioWizard := none
  gym_session : Option GymSession := none
  logs : List QuickLog := []
  last_activity_ts : Nat := 0
  deriving DecidableEq, Repr

/-- The fresh user state (empty `user_data`). -/
def initUD : UserData := {}

/-- The inline keyboards the bot attaches to messages. -/
inductive Markup where
  | noKb | logKb | bodypartKb | equipmentKb | cardioModeKb | continueEndKb | postEndKb
  deriving DecidableEq, Repr

/-- An outbound message (text plus optional keyboard). -/
structure Msg where
  text : String
  markup : Markup
  deriving DecidableEq, Repr

/-- A plain `reply_text` with no keyboard. -/
def plainMsg (t : String) : Msg := ⟨t, Markup.noKb⟩

/-- Python truthiness of an optional string: `not s` holds for a missing
key and for the empty string. -/
def pyFalsy : Option String → Bool
  | none => true
  | some s => s = ""

/-- Python string interpolation of a `str | None` value (`None` prints as
`"None"`). -/
def pyShowOpt : Option String → String
  | none => "None"
  | some s => s

/-! ## Helpers / formatting -/

/-- `_reset_flow`: pop the five transient flow keys. -/
def _reset_flow (ud : UserData) : UserData :=
  { ud with pending_log_activity := none, gym_body_part := none, gym_equipment := none,
            gym_wizard := none, cardio_wizard := none }

/-- `_ensure_gym_session`: create the session if absent, with today's
date, no day, and no entries. -/
def _ensure_gym_session (today : String) (ud : UserData) : UserData :=
  match ud.gym_session with
  | some _ => ud
  | none => { ud with gym_session := some { date := today } }

/-- `_format_compact`: `"{sets} x 6(60), 5(60), ..."`.  The source indexes
`reps[i]` / `weights[i]` for `i in range(sets)`; `getD` stands in for the
indexing (every call site has `reps.length = weights.length = sets`). -/
def _format_compact (sets : Nat) (reps : List Nat) (weights : List String) : String :=
  toString sets ++ " x " ++
    String.intercalate ", "
      ((List.range sets).map (fun i => toString (reps.getD i 0) ++ "(" ++ weights.getD i "" ++ ")"))

/-- `_format_cardio_entry_md`.  The `mode` argument is `wiz.get("mode")`
at the one call site, hence an `Option` (Python's `None == "Incline"` is
`False`). -/
def _format_cardio_entry_md (mode : Option String) (degree : Option String) (speed : String) : String :=
  if mode = some "Incline" then "Incline " ++ pyShowOpt degree ++ "° @ " ++ speed
  else "Flat @ " ++ speed

/-- One line of `_format_workout_summary_md` per entry. -/
def _entry_line : Entry → String
  | Entry.cardio t _ _ _ => "Cardio — " ++ t
  | Entry.lift eqp ex compact => eqp ++ " " ++ ex ++ " — " ++ compact

/-- `sess.get("day") or "Unknown"`. -/
def dayOrUnknown : Option String → String
  | some d => if d = "" then "Unknown" else d
  | none => "Unknown"

/-- `_format_workout_summary_md`.  `today` stands for
`datetime.now().strftime("%d-%m-%Y")`, used when the stored date is
falsy. -/
def _format_workout_summary_md (today : String) (ud : UserData) : String :=
  match ud.gym_session with
  | none => "No workout found."
  | some sess =>
    let date := if sess.date = "" then today else sess.date
    let header := ["Summary of *" ++ date ++ "* Workout", "Day: " ++ dayOrUnknown sess.day]
    if sess.entries = [] then String.intercalate "\n" (header ++ ["(no exercises logged)"])
    else String.intercalate "\n" (header ++ sess.entries.map _entry_line)

/-- `_wizard_init`. -/
def _wizard_init (exercise : String) : GymWizard :=
  { step := "ask_sets", exercise := pyStrip exercise, sets := none, reps := [], weights := [] }

/-! ## Commands -/

/-- `/start`. -/
def start_cmd (now : Nat) (ud0 : UserData) : UserData × List Msg :=
  let ud := { ud0 with last_activity_ts := now }
  if pyFalsy ud.name then
    ({ ud with onboarding := some ONBOARDING_ASK_NAME },
     [plainMsg "👋 Hey there!\n\nWhat should I call you?"])
  else
    (ud, [plainMsg ("Welcome back, " ++ ud.name.getD "" ++ " 💪\n\nCommands:\n/log — log an activity\n/summary — view recent logs\n")])

/-- `/log`. -/
def log_cmd (now : Nat) (ud0 : UserData) : UserData × List Msg :=
  let ud := { ud0 with last_activity_ts := now }
  let greeting :=
    match ud.name with
    | some n => if n = "" then "What would you like to log?" else n ++ ", what would you like to log?"
    | none => "What would you like to log?"
  (_reset_flow ud, [⟨greeting, Markup.logKb⟩])

/-- One numbered line of `/summary` for a gym entry. -/
def _summary_entry_line (ie : Nat × Entry) : String :=
  match ie.2 with
  | Entry.cardio t _ _ _ => toString ie.1 ++ ". Cardio — " ++ t
  | Entry.lift eqp ex compact => toString ie.1 ++ ". " ++ eqp ++ " " ++ ex ++ " — " ++ compact

/-- One numbered line of `/summary` for a quick-log record. -/
def _summary_log_line (il : Nat × QuickLog) : String :=
  toString il.1 ++ ". " ++ il.2.activity ++ ": " ++ il.2.details

/-- The gym block of `/summary`: header, then `entries[-10:]` numbered
from 1 (`l.drop (l.length - 10)` is Python's `l[-10:]`), then a blank
line; empty when there is no session or no entries. -/
def _gym_summary_lines (ud : UserData) : List String :=
  match ud.gym_session with
  | none => []
  | some sess =>
    if sess.entries = [] then []
    else
      ("🏋️ Gym (" ++ sess.date ++ "): Day: " ++ dayOrUnknown sess.day)
        :: (List.enumFrom 1 (sess.entries.drop (sess.entries.length - 10))).map _summary_entry_line
        ++ [""]

/-- The quick-log block of `/summary`: header then `logs[-10:]` numbered
from 1; empty when there are no logs. -/
def _logs_summary_lines (ud : UserData) : List String :=
  if ud.logs = [] then []
  else
    "🧾 Other logs:"
      :: (List.enumFrom 1 (ud.logs.drop (ud.logs.length - 10))).map _summary_log_line

/-- `/summary`. -/
def summary_cmd (now : Nat) (ud0 : UserData) : UserData × List Msg :=
  let ud := { ud0 with last_activity_ts := now }
  let lines := _gym_summary_lines ud ++ _logs_summary_lines ud
  if lines = [] then (ud, [plainMsg "No logs yet. Type /log to start."])
  else (ud, [plainMsg (String.intercalate "\n" lines)])

/-- `/end`. -/
def end_workout_cmd (now : Nat) (today : String) (ud0 : UserData) : UserData × List Msg :=
  let ud := { ud0 with last_activity_ts := now }
  match ud.gym_session with
  | none => (ud, [plainMsg "No active gym workout."])
  | some _ =>
    let msg := _format_workout_summary_md today ud
    (_reset_flow ud, [⟨msg, Markup.postEndKb⟩])

/-! ## Button handlers -/

/-- `on_log_choice` (Run / Gym / Other buttons). -/
def on_log_choice (now : Nat) (today data : String) (ud0 : UserData) : UserData × List Msg :=
  let ud := { ud0 with last_activity_ts := now }
  if data = CB_GYM then
    let ud := _ensure_gym_session today ud
    ({ ud with pending_log_activity := some "Gym" },
     [⟨"🏋️ Gym selected.\nWhat body part are you hitting today?", Markup.bodypartKb⟩])
  else if data = CB_RUN ∨ data = CB_OTHER then
    let activity := if data = CB_RUN then "Run" else "Other"
    ({ ud with pending_log_activity := some activity },
     [plainMsg ("✅ Selected: " ++ activity ++ "\nReply with details (e.g. `5km`, `45min`).")])
  else (ud, [plainMsg "Unknown option. Please type /log again."])

/-- The `body_map` dict. -/
def _body_map (data : String) : Option String :=
  if data = CB_BODY_CHEST then some "Chest"
  else if data = CB_BODY_BACK then some "Back"
  else if data = CB_BODY_LEGS then some "Legs"
  else if data = CB_BODY_ABS then some "Abs"
  else if data = CB_BODY_CARDIO then some DAY_CARDIO
  else none

/-- `on_gym_bodypart_choice`. -/
def on_gym_bodypart_choice (now : Nat) (today data : String) (ud0 : UserData) : UserData × List Msg :=
  let ud := { ud0 with last_activity_ts := now }
  match _body_map data with
  | none => (ud, [plainMsg "Unknown option. Type /log again."])
  | some body =>
    let ud := _ensure_gym_session today ud
    match ud.gym_session with
    | none => (ud, [])  -- unreachable: `_ensure_gym_session` just created it
    | some sess =>
      let ud := { ud with gym_body_part := some body,
                          gym_session := some { sess with day := some body },
                          pending_log_activity := some "Gym" }
      if body = DAY_CARDIO then
        ({ ud with gym_equipment := none, gym_wizard := none,
                   cardio_wizard := some { step := "choose_mode" } },
         [⟨"🏃 Post-gym cardio selected.\nIs it Incline or Flat?", Markup.cardioModeKb⟩])
      else
        (ud, [⟨"Day selected: " ++ body ++ "\nWhich equipment will you be using?", Markup.equipmentKb⟩])

/-- The `eq_map` dict. -/
def _eq_map (data : String) : Option String :=
  if data = CB_EQ_DUMBBELL then some "Dumbbell"
  else if data = CB_EQ_BARBELL then some "Barbell"
  else if data = CB_EQ_MACHINE then some "Machine"
  else if data = CB_EQ_CABLE then some "Cable"
  else if data = CB_EQ_BODYWEIGHT then some "Body Weight"
  else none

/-- `on_gym_equipment_choice`. -/
def on_gym_equipment_choice (now : Nat) (data : String) (ud0 : UserData) : UserData × List Msg :=
  let ud := { ud0 with last_activity_ts := now }
  match _eq_map data with
  | none => (ud, [plainMsg "Unknown option. Type /log again."])
  | some equipment =>
    let day := (ud.gym_body_part).getD "Unknown"
    ({ ud with gym_equipment := some equipment, gym_wizard := some { step := "ask_exercise_name" } },
     [plainMsg ("Day: " ++ day ++ "\nEquipment: " ++ equipment ++ "\n\nType the exercise name (e.g. `Bench Press`, `Squat`).")])

/-- `on_cardio_mode_choice`. -/
def on_cardio_mode_choice (now : Nat) (today data : String) (ud0 : UserData) : UserData × List Msg :=
  let ud := { ud0 with last_activity_ts := now }
  let ud := _ensure_gym_session today ud
  match ud.gym_session with
  | none => (ud, [])  -- unreachable: `_ensure_gym_session` just created it
  | some sess =>
    if sess.day ≠ some DAY_CARDIO then
      (ud, [plainMsg "Cardio mode is only for Post-gym cardio. Type /log to start."])
    else
      let mode := if data = CB_CARDIO_INCLINE then "Incline" else "Flat"
      let wiz : CardioWizard :=
        { step := if mode = "Incline" then "ask_degree" else "ask_speed",
          mode := some mode, degree := none, speed := none }
      let ud := { ud with cardio_wizard := some wiz }
      if mode = "Incline" then
        (ud, [plainMsg "Incline degree? (e.g. `10`)  \nType a number only."])
      else
        (ud, [plainMsg "Flat selected.\nWhat speed? (e.g. `6.0`, `10`)"])

/-- `on_continue_end_choice` (the choice shown after every finalized
entry). -/
def on_continue_end_choice (now : Nat) (today data : String) (ud0 : UserData) : UserData × List Msg :=
  let ud := { ud0 with last_activity_ts := now }
  if data = CB_GYM_CONTINUE then
    let sessDay := match ud.gym_session with
      | some s => s.day
      | none => none
    let day :=
      if ¬ pyFalsy sessDay then sessDay.getD ""
      else if ¬ pyFalsy ud.gym_body_part then (ud.gym_body_part).getD ""
      else "Unknown"
    let ud := { ud with gym_body_part := some day, pending_log_activity := some "Gym" }
    if day = DAY_CARDIO then
      ({ ud with cardio_wizard := some { step := "choose_mode" }, gym_wizard := none, gym_equipment := none },
       [⟨"Continuing Post-gym cardio.\nIncline or Flat?", Markup.cardioModeKb⟩])
    else
      ({ ud with gym_wizard := none, gym_equipment := none, cardio_wizard := none },
       [⟨"Day: " ++ day ++ "\nWhich equipment will you be using for the next exercise?", Markup.equipmentKb⟩])
  else if data = CB_GYM_END then
    let msg := _format_workout_summary_md today ud
    (_reset_flow ud, [⟨"✅ Workout ended.", Markup.noKb⟩, ⟨msg, Markup.postEndKb⟩])
  else (ud, [])

/-- `on_post_end_choice` (continue same day / start new day). -/
def on_post_end_choice (now : Nat) (today data : String) (ud0 : UserData) : UserData × List Msg :=
  let ud := { ud0 with last_activity_ts := now }
  if data = CB_POST_CONTINUE then
    let ud := _ensure_gym_session today ud
    let ud := { ud with pending_log_activity := some "Gym" }
    match ud.gym_session with
    | none => (ud, [])  -- unreachable: `_ensure_gym_session` just created it
    | some sess =>
      if pyFalsy sess.day then
        (ud, [⟨"Alright — what body part are you hitting today?", Markup.bodypartKb⟩])
      else if sess.day = some DAY_CARDIO then
        ({ ud with cardio_wizard := some { step := "choose_mode" } },
         [⟨"Continuing Post-gym cardio.\nIncline or Flat?", Markup.cardioModeKb⟩])
      else
        (ud, [⟨"Continuing Day: " ++ sess.day.getD "" ++ "\nWhich equipment will you be using next?", Markup.equipmentKb⟩])
  else if data = CB_POST_NEW_DAY then
    let ud := _reset_flow { ud with gym_session := none }
    let ud := _ensure_gym_session today ud
    let ud := match ud.gym_session with
      | some sess => { ud with gym_session := some { sess with date := today } }
      | none => ud
    let ud := { ud with pending_log_activity := some "Gym" }
    (ud, [⟨"New day started ✅\nWhat body part are you hitting today?", Markup.bodypartKb⟩])
  else (ud, [])

/-! ## Text handler -/

/-- The cardio section of `on_details_message` (reached when the session
day is `DAY_CARDIO`).  `text` is the already-stripped message body. -/
def _cardio_text (text : String) (sess : GymSession) (ud : UserData) : UserData × List Msg :=
  match ud.cardio_wizard with
  | none => (ud, [plainMsg "Tap /log → Gym → Post-gym cardio to start cardio logging."])
  | some wiz =>
    if wiz.step = "choose_mode" then
      (ud, [plainMsg "Please choose Incline or Flat using the buttons."])
    else if wiz.step = "ask_degree" then
      if ¬ _is_number_like text then
        (ud, [plainMsg "Please enter a number for incline degree (e.g. `10`)."])
      else
        ({ ud with cardio_wizard := some { wiz with degree := some (pyStrip text), step := "ask_speed" } },
         [plainMsg "What speed? (e.g. `6.0`, `10`)"])
    else if wiz.step = "ask_speed" then
      if ¬ _is_number_like text then
        (ud, [plainMsg "Please enter a number for speed (e.g. `6.0`)."])
      else
        let speed := pyStrip text
        let entry_text := _format_cardio_entry_md wiz.mode wiz.degree speed
        let sess2 := { sess with entries := sess.entries ++ [Entry.cardio entry_text wiz.mode wiz.degree speed] }
        ({ ud with gym_session := some sess2, cardio_wizard := none },
         [⟨"Day: " ++ DAY_CARDIO ++ "\nCardio — " ++ entry_text ++ "\n\nWould you like to continue logging or end the workout?",
           Markup.continueEndKb⟩])
    else (ud, [plainMsg "I got confused in cardio flow. Type /log to restart."])

/-- The lifting section of `on_details_message` (session day present and
not `DAY_CARDIO`).  `text` is the already-stripped message body. -/
def _lift_text (text : String) (sess : GymSession) (ud : UserData) : UserData × List Msg :=
  let equipment := ud.gym_equipment
  if pyFalsy sess.day ∨ pyFalsy equipment then
    (ud, [plainMsg "Please choose Day + Equipment first. Type /log and pick Gym."])
  else
    match ud.gym_wizard with
    | none => (ud, [plainMsg "Please choose equipment first (via buttons). Type /log → Gym."])
    | some wiz =>
      if wiz.step = "ask_exercise_name" then
        ({ ud with gym_wizard := some (_wizard_init text) }, [plainMsg "Number of sets?"])
      else if wiz.step = "ask_sets" then
        match pyIntParse text with
        | none => (ud, [plainMsg "Please enter a valid number of sets (1-20)."])
        | some n =>
          if n ≤ 0 ∨ 20 < n then
            (ud, [plainMsg "Please enter a valid number of sets (1-20)."])
          else
            ({ ud with gym_wizard := some { wiz with sets := some n.toNat, step := "ask_set_line" } },
             [plainMsg "Set 1 — reps @ weight?\nExample: `6@60` or `6 @ 60` or `6x60`"])
      else if wiz.step = "ask_set_line" then
        match _parse_set_input text with
        | none => (ud, [plainMsg "Use format `reps@weight` (e.g. `6@60`)."])
        | some rw =>
          let wiz2 := { wiz with reps := wiz.reps ++ [rw.1], weights := wiz.weights ++ [rw.2] }
          if wiz2.reps.length < wiz2.sets.getD 0 then
            ({ ud with gym_wizard := some wiz2 },
             [plainMsg ("Set " ++ toString (wiz2.reps.length + 1) ++ " — reps @ weight?")])
          else
            let setsN := wiz2.sets.getD 0
            let compact := _format_compact setsN wiz2.reps wiz2.weights
            let exercise := wiz2.exercise
            let eqS := equipment.getD ""
            let sess2 := { sess with entries := sess.entries ++ [Entry.lift eqS exercise compact] }
            ({ ud with gym_session := some sess2, gym_wizard := none, gym_equipment := none },
             [⟨"Day: " ++ sess.day.getD "" ++ "\n" ++ eqS ++ " " ++ exercise ++ "\n" ++ compact ++
                 "\n\nWould you like to continue logging or end the workout?",
               Markup.continueEndKb⟩])
      else (ud, [plainMsg "I got confused in the flow. Type /log to restart."])

/-- The gym section of `on_details_message` (`pending == "Gym"`). -/
def _gym_text (today text : String) (ud0 : UserData) : UserData × List Msg :=
  let ud := _ensure_gym_session today ud0
  match ud.gym_session with
  | none => (ud, [])  -- unreachable: `_ensure_gym_session` just created it
  | some sess =>
    if sess.day = some DAY_CARDIO then _cardio_text text sess ud
    else _lift_text text sess ud

/-- `on_details_message`: the free-text handler.  `today` stands for the
current date/timestamp strings taken from `datetime.now()`. -/
def on_details_message (now : Nat) (today raw : String) (ud0 : UserData) : UserData × List Msg :=
  let ud := { ud0 with last_activity_ts := now }
  let text := pyStrip raw
  if text = "" then (ud, [])
  else if ud.onboarding = some ONBOARDING_ASK_NAME then
    let name := pyStrip text
    if name.length < 2 then (ud, [plainMsg "That name seems a bit short 😅 Try again?"])
    else
      ({ ud with name := some name, onboarding := none },
       [plainMsg ("Nice to meet you, " ++ name ++ " 💪\n\nType /log when ready.")])
  else if ud.pending_log_activity = some "Gym" then _gym_text today text ud
  else if ud.pending_log_activity = some "Run" ∨ ud.pending_log_activity = some "Other" then
    let activity := (ud.pending_log_activity).getD ""
    let ud2 := { ud with pending_log_activity := none,
                         logs := ud.logs ++ [⟨activity, text, today⟩] }
    (ud2, [plainMsg ("📌 Logged: " ++ activity ++ " — " ++ text ++ "\nType /log to add another, or /summary to see logs.")])
  else (ud, [])

/-! ## Inactivity timer worker -/

/-- The body of `_reset_inactivity_timer`'s `_worker` once the sleep has
elapsed (the timer firing).  Popping the absent-able `last_activity_ts`
key is embedded as resetting it to `0`, the default `get` reports for a
missing key. -/
def inactivity_worker_fire (now : Nat) (today : String) (ud : UserData) : UserData × List Msg :=
  let last := ud.last_activity_ts
  if now - last < INACTIVITY_SECONDS then (ud, [])
  else
    match ud.gym_session with
    | some _ =>
      let summary_md := _format_workout_summary_md today ud
      let ud := { ud with pending_log_activity := none, gym_body_part := none,
                          gym_equipment := none, gym_wizard := none, cardio_wizard := none }
      let ud := { ud with last_activity_ts := 0 }
      (ud, [⟨"⏱️ No activity for a while, so I ended your log automatically.\n\n" ++ summary_md,
             Markup.postEndKb⟩])
    | none =>
      let ud := _reset_flow ud
      let ud := { ud with last_activity_ts := 0 }
      (ud, [plainMsg "⏱️ No activity for a while, so I ended your log automatically.\n\nType /log to start again."])

/-! ## Dispatcher -/

/-- An inbound gateway event. -/
inductive Ev where
  | cmdStart
  | cmdLog
  | cmdSummary
  | cmdEnd
  | button (data : String)
  | text (s : String)
  deriving DecidableEq, Repr

/-- Regex prefix test for the `CallbackQueryHandler` patterns, as a
computable list check. -/
def strHasPre (pre s : String) : Bool :=
  pre.toList.isPrefixOf s.toList

/-- The handler registration of `main()`: commands, then the callback
patterns in registration order, then the text handler. -/
def handle (now : Nat) (today : String) (e : Ev) (ud : UserData) : UserData × List Msg :=
  match e with
  | Ev.cmdStart => start_cmd now ud
  | Ev.cmdLog => log_cmd now ud
  | Ev.cmdSummary => summary_cmd now ud
  | Ev.cmdEnd => end_workout_cmd now today ud
  | Ev.button d =>
    if d = CB_RUN ∨ d = CB_GYM ∨ d = CB_OTHER then on_log_choice now today d ud
    else if strHasPre "gym_body_" d then on_gym_bodypart_choice now today d ud
    else if strHasPre "gym_eq_" d then on_gym_equipment_choice now d ud
    else if d = CB_CARDIO_INCLINE ∨ d = CB_CARDIO_FLAT then on_cardio_mode_choice now today d ud
    else if d = CB_GYM_CONTINUE ∨ d = CB_GYM_END then on_continue_end_choice now today d ud
    else if d = CB_POST_CONTINUE ∨ d = CB_POST_NEW_DAY then on_post_end_choice now today d ud
    else (ud, [])
  | Ev.text s => on_details_message now today s ud

/-- Run a sequence of events (fixed clock and date), keeping the state. -/
def runEvents (today : String) (evs : List Ev) (ud : UserData) : UserData :=
  evs.foldl (fun u e => (handle 0 today e u).1) ud

/-- Run a sequence of text messages through `on_details_message`. -/
def foldTexts (now : Nat) (today : String) (ts : List String) (ud : UserData) : UserData :=
  ts.foldl (fun u t => (on_details_message now today t u).1) ud

/-! ## State predicates and concrete witness states -/

/-- Concrete session for the C2 witness. -/
def sessC2w : GymSession :=
  { date := "01-01-2026", day := some "Chest",
    entries := [Entry.lift "Dumbbell" "Bench Press" "2 x 6(60), 5(60)"] }

/-- Concrete state for the C2 witness: a session with an entry, a live
lift wizard, and a last-activity stamp 20000 seconds in the past. -/
def udC2w : UserData :=
  { gym_session := some sessC2w,
    gym_wizard := some { step := "ask_sets" },
    pending_log_activity := some "Gym",
    last_activity_ts := 0 }

/-- Concrete session for the C10 witness: 12 gym entries. -/
def sessC10w : GymSession :=
  { date := "01-01-2026", day := some "Back",
    entries := List.replicate 12 (Entry.lift "Barbell" "Row" "3 x 8(40), 8(40), 8(40)") }

/-- Concrete state for the C10 witness: 12 gym entries and 11 quick
logs. -/
def udC10w : UserData :=
  { gym_session := some sessC10w,
    logs := List.replicate 11 { activity := "Run", details := "5km", ts := "t" } }

/-- Concrete session for the C3 witness. -/
def sessC3w : GymSession := { date := "01-01-2026", day := some "Chest" }

/-- Concrete wizard for the C3 witness. -/
def wizC3w : GymWizard := { step := "ask_sets", exercise := "Bench Press" }

/-- Concrete state for the C3 witness: Chest day, Dumbbell equipment,
lift wizard waiting at the ask-sets step. -/
def udC3w : UserData :=
  { pending_log_activity := some "Gym", gym_session := some sessC3w,
    gym_equipment := some "Dumbbell", gym_wizard := some wizC3w }

/-- Concrete session for the C6 witness. -/
def sessC6w : GymSession := { date := "01-01-2026", day := some DAY_CARDIO }

/-- Concrete cardio wizard for the C6 witness. -/
def wizC6w : CardioWizard := { step := "ask_degree", mode := some "Incline" }

/-- Concrete state for the C6 witness: cardio day with the wizard at the
degree question. -/
def udC6w : UserData :=
  { pending_log_activity := some "Gym", gym_session := some sessC6w,
    cardio_wizard := some wizC6w }

/-- The lift wizard is at the set-line step with `acc` the reps/weight
pairs collected so far (`sets = n` accepted earlier, fewer than `n`
pairs so far), in a state where the text handler routes to the lift
flow. -/
def SetLineState (ud : UserData) (sess : GymSession) (e ex : String) (n : Nat)
    (acc : List (Nat × String)) : Prop :=
  ud.onboarding = none ∧ ud.pending_log_activity = some "Gym" ∧
  ud.gym_session = some sess ∧
  (∃ d, sess.day = some d ∧ d ≠ DAY_CARDIO ∧ d ≠ "") ∧
  ud.gym_equipment = some e ∧ e ≠ "" ∧
  ud.gym_wizard = some (GymWizard.mk "ask_set_line" ex (some n) (acc.map Prod.fst) (acc.map Prod.snd)) ∧
  acc.length < n

/-- After an entry is finalized the equipment key is gone, so further
text in the lift flow only re-prompts. -/
def PostFinalizeState (ud : UserData) : Prop :=
  ud.onboarding = none ∧ ud.pending_log_activity = some "Gym" ∧
  (∃ sess, ud.gym_session = some sess ∧ sess.day ≠ some DAY_CARDIO) ∧
  ud.gym_equipment = none

/-- Concrete session for the C5 witness. -/
def sessC5w : GymSession := { date := "01-01-2026", day := some "Chest" }

/-- Concrete state for the C5 witness: fresh set-line wizard expecting
2 sets. -/
def udC5w : UserData :=
  { pending_log_activity := some "Gym", gym_session := some sessC5w,
    gym_equipment := some "Dumbbell",
    gym_wizard := some (GymWizard.mk "ask_set_line" "Bench Press" (some 2) [] []) }

/-! ## Helper lemmas -/

theorem dropWhile_idem (p : α → Bool) (l : List α) :
    (l.dropWhile p).dropWhile p = l.dropWhile p := by
  induction l with
  | nil => rfl
  | cons a t ih =>
    by_cases h : p a
    · rw [List.dropWhile_cons, if_pos h, ih]
    · rw [List.dropWhile_cons, if_neg h, List.dropWhile_cons, if_neg h]

theorem getLast?_dropWhile (p : α → Bool) (l : List α) (h : l.dropWhile p ≠ []) :
    (l.dropWhile p).getLast? = l.getLast? := by
  induction l with
  | nil => simp at h
  | cons a t ih =>
    by_cases hp : p a
    · rw [List.dropWhile_cons, if_pos hp] at h ⊢
      have ht : t ≠ [] := by
        intro he
        rw [he] at h
        simp at h
      rw [ih h]
      match t, ht with
      | b :: t2, _ => rw [List.getLast?_cons_cons]
    · rw [List.dropWhile_cons, if_neg hp]

theorem head?_dropWhile_not (p : α → Bool) (l : List α) (a : α)
    (h : (l.dropWhile p).head? = some a) : p a = false := by
  induction l with
  | nil => simp at h
  | cons b t ih =>
    by_cases hp : p b
    · rw [List.dropWhile_cons, if_pos hp] at h
      exact ih h
    · rw [List.dropWhile_cons, if_neg hp] at h
      simp at h
      rw [← h]
      simpa using hp

theorem dropWhile_eq_self_of_head (p : α → Bool) (l : List α) (a : α)
    (h1 : l.head? = some a) (h2 : p a = false) : l.dropWhile p = l := by
  match l, h1 with
  | b :: t, h1 =>
    simp at h1
    rw [List.dropWhile_cons, if_neg (by rw [h1, h2]; simp)]

theorem pyStripList_idem (l : List Char) : pyStripList (pyStripList l) = pyStripList l := by
  unfold pyStripList
  generalize hm : l.dropWhile Char.isWhitespace = m
  generalize hr : m.reverse.dropWhile Char.isWhitespace = r
  by_cases hrn : r = []
  · rw [hrn]
    rfl
  · have hA : r.reverse.dropWhile Char.isWhitespace = r.reverse := by
      cases hh : r.reverse.head? with
      | none =>
        rw [List.head?_eq_none_iff] at hh
        rw [hh]
        rfl
      | some a =>
        refine dropWhile_eq_self_of_head _ _ a hh ?_
        rw [List.head?_reverse] at hh
        rw [← hr, getLast?_dropWhile _ _ (by rw [hr]; exact hrn), List.getLast?_reverse] at hh
        exact head?_dropWhile_not _ l a (by rw [hm]; exact hh)
    rw [hA, List.reverse_reverse]
    have hB : r.dropWhile Char.isWhitespace = r := by
      rw [← hr, dropWhile_idem]
    rw [hB]

theorem pyStrip_idem (s : String) : pyStrip (pyStrip s) = pyStrip s := by
  unfold pyStrip
  rw [show (String.mk (pyStripList s.toList)).toList = pyStripList s.toList from rfl,
    pyStripList_idem]

theorem _normalize_set_text_pyStrip (s : String) :
    _normalize_set_text (pyStrip s) = _normalize_set_text s := by
  unfold _normalize_set_text
  rw [pyStrip_idem]

theorem _parse_set_input_pyStrip (s : String) :
    _parse_set_input (pyStrip s) = _parse_set_input s := by
  unfold _parse_set_input
  rw [_normalize_set_text_pyStrip]

theorem pyIntParse_pyStrip (s : String) : pyIntParse (pyStrip s) = pyIntParse s := by
  unfold pyIntParse
  rw [pyStrip_idem]

theorem _is_number_like_pyStrip (s : String) :
    _is_number_like (pyStrip s) = _is_number_like s := by
  unfold _is_number_like
  rw [pyStrip_idem]

theorem _parse_set_input_of_strip_empty (s : String) (h : pyStrip s = "") :
    _parse_set_input s = none := by
  have hn : _normalize_set_text s = [] := by
    unfold _normalize_set_text
    rw [h]
    rfl
  unfold _parse_set_input
  rw [hn]
  rfl

theorem UserData.set_ts_self (u : UserData) (now : Nat) (h : u.last_activity_ts = now) :
    { u with last_activity_ts := now } = u := by
  cases u
  simp at h
  rw [h]

theorem splitFirstAt_cons (c a : Char) (rest : List Char) :
    splitFirstAt c (a :: rest) =
      if a = c then ([], rest)
      else (a :: (splitFirstAt c rest).1, (splitFirstAt c rest).2) := by
  rfl

theorem splitFirstAt_spec (c : Char) (l : List Char) (h : c ∈ l) :
    l = (splitFirstAt c l).1 ++ c :: (splitFirstAt c l).2 ∧ c ∉ (splitFirstAt c l).1 := by
  induction l with
  | nil => simp at h
  | cons a rest ih =>
    by_cases hac : a = c
    · subst hac
      rw [splitFirstAt_cons, if_pos rfl]
      simp
    · have hc : c ∈ rest := by
        rcases List.mem_cons.mp h with h1 | h1
        · exact absurd h1.symm hac
        · exact h1
      obtain ⟨ih1, ih2⟩ := ih hc
      rw [splitFirstAt_cons, if_neg hac]
      refine ⟨?_, ?_⟩
      · show a :: rest = (a :: (splitFirstAt c rest).1) ++ c :: (splitFirstAt c rest).2
        rw [List.cons_append]
        exact congrArg (a :: ·) ih1
      · show c ∉ a :: (splitFirstAt c rest).1
        intro hmem
        rcases List.mem_cons.mp hmem with h1 | h1
        · exact hac h1.symm
        · exact ih2 h1

theorem splitFirstAt_append (c : Char) (d rest : List Char) (h : c ∉ d) :
    splitFirstAt c (d ++ c :: rest) = (d, rest) := by
  induction d with
  | nil =>
    rw [List.nil_append, splitFirstAt_cons, if_pos rfl]
  | cons a d2 ih =>
    have hac : ¬ a = c := fun he => h (by rw [he]; exact List.mem_cons_self _ _)
    have hcd : c ∉ d2 := fun hm => h (List.mem_cons_of_mem _ hm)
    rw [List.cons_append, splitFirstAt_cons, if_neg hac, ih hcd]

/-! ## Claim C1 -/

/-- C1 counterexample: the claim says the weight is "the non-empty
trailing token of s taken verbatim", so `_parse_set_input "6@60KG"`
would have to be `(6, "60KG")`; the code lowercases the whole input
before splitting and returns `(6, "60kg")` instead. -/
theorem C1_counterexample :
    _parse_set_input "6@60KG" = some (6, "60kg") ∧
      _parse_set_input "6@60KG" ≠ some (6, "60KG") := by
  decide

/-- C1 (amended): `_parse_set_input s` returns `(reps, weight)` exactly
when the normalised input (stripped, lowercased, spaces deleted, every
x replaced by @) splits at its first @ into a non-empty digit string
whose value is between 1 and 200 (the reps) and a non-empty remainder
(the weight, further stripped); the weight is this transformed
remainder, not the verbatim trailing token of `s`.  The five example
evaluations of the claim all hold. -/
theorem C1_parse_set_input_characterization :
    (∀ (s : String) (r : Nat) (w : String),
      _parse_set_input s = some (r, w) ↔
        ∃ d rest : List Char,
          _normalize_set_text s = d ++ '@' :: rest ∧ '@' ∉ d ∧
          d ≠ [] ∧ d.all Char.isDigit = true ∧
          digitsVal d = r ∧ 1 ≤ r ∧ r ≤ 200 ∧
          w = pyStrip (String.mk rest) ∧ w ≠ "") ∧
    _parse_set_input "6@60" = some (6, "60") ∧
    _parse_set_input "6 @ 60" = some (6, "60") ∧
    _parse_set_input "6x60" = some (6, "60") ∧
    _parse_set_input "abc" = none ∧
    _parse_set_input "0@60" = none := by
  refine ⟨?_, by decide, by decide, by decide, by decide, by decide⟩
  intro s r w
  constructor
  · intro h
    unfold _parse_set_input at h
    by_cases hm : '@' ∈ _normalize_set_text s
    · rw [if_pos hm] at h
      obtain ⟨hsplit, hnm⟩ := splitFirstAt_spec '@' (_normalize_set_text s) hm
      by_cases hd : pyIsdigit (splitFirstAt '@' (_normalize_set_text s)).1 = true
      · rw [if_pos hd] at h
        by_cases hz : digitsVal (splitFirstAt '@' (_normalize_set_text s)).1 = 0 ∨
            digitsVal (splitFirstAt '@' (_normalize_set_text s)).1 > 200 ∨
            pyStrip (String.mk (splitFirstAt '@' (_normalize_set_text s)).2) = ""
        · rw [if_pos hz] at h
          exact absurd h (by simp)
        · rw [if_neg hz] at h
          push_neg at hz
          obtain ⟨hz1, hz2, hz3⟩ := hz
          obtain ⟨hr, hw⟩ : digitsVal (splitFirstAt '@' (_normalize_set_text s)).1 = r ∧
              pyStrip (String.mk (splitFirstAt '@' (_normalize_set_text s)).2) = w := by
            have := Option.some.inj h
            exact ⟨congrArg Prod.fst this, congrArg Prod.snd this⟩
          refine ⟨(splitFirstAt '@' (_normalize_set_text s)).1,
            (splitFirstAt '@' (_normalize_set_text s)).2, hsplit, hnm, ?_, ?_, hr, ?_, ?_, hw.symm, ?_⟩
          · intro he
            rw [he] at hd
            exact absurd hd (by decide)
          · unfold pyIsdigit at hd
            exact (Bool.and_eq_true_iff.mp hd).2
          · omega
          · omega
          · rw [hw] at hz3
            exact hz3
      · rw [if_neg hd] at h
        exact absurd h (by simp)
    · rw [if_neg hm] at h
      exact absurd h (by simp)
  · rintro ⟨d, rest, hnorm, hnm, hne, hdig, hval, h1, h2, hw, hwne⟩
    unfold _parse_set_input
    rw [hnorm]
    have hmem : '@' ∈ d ++ '@' :: rest := List.mem_append_right d (List.mem_cons_self _ _)
    rw [if_pos hmem, splitFirstAt_append '@' d rest hnm]
    have hdd : pyIsdigit (d, rest).1 = true := by
      unfold pyIsdigit
      rw [Bool.and_eq_true_iff]
      refine ⟨?_, hdig⟩
      rw [Bool.not_eq_true']
      exact List.isEmpty_eq_false_iff_exists_mem.mpr (by
        match d, hne with
        | a :: t, _ => exact ⟨a, List.mem_cons_self _ _⟩)
    rw [if_pos hdd]
    have hcond : ¬ (digitsVal (d, rest).1 = 0 ∨ digitsVal (d, rest).1 > 200 ∨
        pyStrip (String.mk (d, rest).2) = "") := by
      push_neg
      refine ⟨?_, ?_, ?_⟩
      · show digitsVal d ≠ 0
        omega
      · show digitsVal d ≤ 200
        omega
      · show pyStrip (String.mk rest) ≠ ""
        rw [← hw]
        exact hwne
    rw [if_neg hcond]
    show some (digitsVal d, pyStrip (String.mk rest)) = some (r, w)
    rw [hval, ← hw]

/-! ## Claim C2 -/

theorem format_summary_ts (today : String) (ud : UserData) (now : Nat) :
    _format_workout_summary_md today { ud with last_activity_ts := now } =
      _format_workout_summary_md today ud := rfl

/-- C2: when the inactivity timer fires, the worker first re-checks the
recorded last-activity timestamp and aborts silently (no message, no
state change) if less than `INACTIVITY_SECONDS` elapsed; otherwise, with
a gym session present, it sends the timeout notice carrying the session
summary with the post-end keyboard, clears exactly the five transient
flow keys, and leaves the session (date, day, entries) and the name,
onboarding and quick-log state untouched. -/
theorem C2_inactivity_worker (now : Nat) (today : String) (ud : UserData) :
    (now - ud.last_activity_ts < INACTIVITY_SECONDS →
      inactivity_worker_fire now today ud = (ud, [])) ∧
    (∀ sess : GymSession, ud.gym_session = some sess →
      INACTIVITY_SECONDS ≤ now - ud.last_activity_ts →
      (inactivity_worker_fire now today ud).1.gym_session = some sess ∧
      (inactivity_worker_fire now today ud).1.pending_log_activity = none ∧
      (inactivity_worker_fire now today ud).1.gym_body_part = none ∧
      (inactivity_worker_fire now today ud).1.gym_equipment = none ∧
      (inactivity_worker_fire now today ud).1.gym_wizard = none ∧
      (inactivity_worker_fire now today ud).1.cardio_wizard = none ∧
      (inactivity_worker_fire now today ud).1.name = ud.name ∧
      (inactivity_worker_fire now today ud).1.onboarding = ud.onboarding ∧
      (inactivity_worker_fire now today ud).1.logs = ud.logs ∧
      (inactivity_worker_fire now today ud).2 =
        [⟨"⏱️ No activity for a while, so I ended your log automatically.\n\n" ++
            _format_workout_summary_md today ud, Markup.postEndKb⟩]) := by
  constructor
  · intro h
    unfold inactivity_worker_fire
    rw [if_pos h]
  · intro sess hsess h2
    have hlt : ¬ (now - ud.last_activity_ts < INACTIVITY_SECONDS) := by omega
    unfold inactivity_worker_fire
    rw [if_neg hlt, hsess]
    exact ⟨rfl, rfl, rfl, rfl, rfl, rfl, rfl, rfl, rfl, rfl⟩

theorem C2_inactivity_worker_witness :
    inactivity_worker_fire 5 "02-01-2026" initUD = (initUD, []) ∧
    (inactivity_worker_fire 20000 "02-01-2026" udC2w).1.gym_session = some sessC2w :=
  ⟨(C2_inactivity_worker 5 "02-01-2026" initUD).1 (by decide),
   ((C2_inactivity_worker 20000 "02-01-2026" udC2w).2 sessC2w rfl (by decide)).1⟩

/-! ## Claim C7 -/

/-- C7: pressing End formats the full session summary (sent with the
post-end choice keyboard), clears exactly the five transient flow keys,
and leaves the gym session record (date, day, entries), the name, the
onboarding state and the quick-log list unchanged. -/
theorem C7_end_button (now : Nat) (today : String) (ud : UserData) :
    (on_continue_end_choice now today CB_GYM_END ud).1.pending_log_activity = none ∧
    (on_continue_end_choice now today CB_GYM_END ud).1.gym_body_part = none ∧
    (on_continue_end_choice now today CB_GYM_END ud).1.gym_equipment = none ∧
    (on_continue_end_choice now today CB_GYM_END ud).1.gym_wizard = none ∧
    (on_continue_end_choice now today CB_GYM_END ud).1.cardio_wizard = none ∧
    (on_continue_end_choice now today CB_GYM_END ud).1.gym_session = ud.gym_session ∧
    (on_continue_end_choice now today CB_GYM_END ud).1.name = ud.name ∧
    (on_continue_end_choice now today CB_GYM_END ud).1.onboarding = ud.onboarding ∧
    (on_continue_end_choice now today CB_GYM_END ud).1.logs = ud.logs ∧
    (on_continue_end_choice now today CB_GYM_END ud).2 =
      [⟨"✅ Workout ended.", Markup.noKb⟩,
       ⟨_format_workout_summary_md today ud, Markup.postEndKb⟩] := by
  unfold on_continue_end_choice
  rw [if_neg (show ¬ CB_GYM_END = CB_GYM_CONTINUE by decide), if_pos rfl]
  exact ⟨rfl, rfl, rfl, rfl, rfl, rfl, rfl, rfl, rfl, rfl⟩

/-! ## Claim C9 -/

/-- C9: a non-empty text message arriving with no pending activity and
no onboarding step in progress produces no reply at all. -/
theorem C9_stray_text_silent (now : Nat) (today raw : String) (ud : UserData)
    (_hraw : raw ≠ "") (hp : ud.pending_log_activity = none) (ho : ud.onboarding = none) :
    (on_details_message now today raw ud).2 = [] := by
  simp only [on_details_message]
  by_cases hs : pyStrip raw = ""
  · simp [hs]
  · simp [hs, hp, ho, ONBOARDING_ASK_NAME]

theorem C9_stray_text_silent_witness :
    (on_details_message 0 "01-01-2026" "hello there" initUD).2 = [] :=
  C9_stray_text_silent 0 "01-01-2026" "hello there" initUD (by decide) rfl rfl

/-! ## Claim C10 -/

/-- C10: `/summary` shows at most the 10 most recent gym entries and at
most the 10 most recent quick-log entries: each displayed block is a
suffix of the stored list of length `min length 10` (so all older items
are omitted), numbered from 1 in stored (chronological) order. -/
theorem C10_summary_last_ten (now : Nat) (ud : UserData) (sess : GymSession)
    (hs : ud.gym_session = some sess) (hne : sess.entries ≠ []) :
    ∃ oldE recE oldL recL,
      sess.entries = oldE ++ recE ∧ recE.length = min sess.entries.length 10 ∧
      ud.logs = oldL ++ recL ∧ recL.length = min ud.logs.length 10 ∧
      (summary_cmd now ud).2 =
        [plainMsg (String.intercalate "\n"
          ((("🏋️ Gym (" ++ sess.date ++ "): Day: " ++ dayOrUnknown sess.day)
              :: (List.enumFrom 1 recE).map _summary_entry_line ++ [""]) ++
           (if ud.logs = [] then []
            else "🧾 Other logs:" :: (List.enumFrom 1 recL).map _summary_log_line)))] := by
  refine ⟨sess.entries.take (sess.entries.length - 10), sess.entries.drop (sess.entries.length - 10),
    ud.logs.take (ud.logs.length - 10), ud.logs.drop (ud.logs.length - 10),
    (List.take_append_drop _ _).symm, ?_, (List.take_append_drop _ _).symm, ?_, ?_⟩
  · rw [List.length_drop]
    omega
  · rw [List.length_drop]
    omega
  · have hgym : _gym_summary_lines { ud with last_activity_ts := now } =
        ("🏋️ Gym (" ++ sess.date ++ "): Day: " ++ dayOrUnknown sess.day)
          :: (List.enumFrom 1 (sess.entries.drop (sess.entries.length - 10))).map _summary_entry_line
          ++ [""] := by
      unfold _gym_summary_lines
      rw [show ({ ud with last_activity_ts := now } : UserData).gym_session = ud.gym_session from rfl,
        hs]
      exact if_neg hne
    have hlogs : _logs_summary_lines { ud with last_activity_ts := now } =
        (if ud.logs = [] then []
         else "🧾 Other logs:"
           :: (List.enumFrom 1 (ud.logs.drop (ud.logs.length - 10))).map _summary_log_line) := by
      unfold _logs_summary_lines
      rfl
    have hnil : _gym_summary_lines { ud with last_activity_ts := now } ++
        _logs_summary_lines { ud with last_activity_ts := now } ≠ [] := by
      rw [hgym]
      simp
    unfold summary_cmd
    rw [if_neg hnil, hgym, hlogs]

theorem C10_summary_last_ten_witness :
    ∃ oldE recE oldL recL,
      sessC10w.entries = oldE ++ recE ∧ recE.length = min sessC10w.entries.length 10 ∧
      udC10w.logs = oldL ++ recL ∧ recL.length = min udC10w.logs.length 10 ∧
      (summary_cmd 0 udC10w).2 =
        [plainMsg (String.intercalate "\n"
          ((("🏋️ Gym (" ++ sessC10w.date ++ "): Day: " ++ dayOrUnknown sessC10w.day)
              :: (List.enumFrom 1 recE).map _summary_entry_line ++ [""]) ++
           (if udC10w.logs = [] then []
            else "🧾 Other logs:" :: (List.enumFrom 1 recL).map _summary_log_line)))] :=
  C10_summary_last_ten 0 udC10w sessC10w rfl (by decide)

/-! ## Claim C3 -/

/-- Under the lift-flow state hypotheses, `on_details_message` reduces to
`_lift_text` on the stripped text and the touched state. -/
theorem on_details_to_lift (now : Nat) (today raw : String) (ud : UserData) (sess : GymSession)
    (ho : ud.onboarding = none) (hp : ud.pending_log_activity = some "Gym")
    (hs : ud.gym_session = some sess) (hday : sess.day ≠ some DAY_CARDIO)
    (hne : pyStrip raw ≠ "") :
    on_details_message now today raw ud =
      _lift_text (pyStrip raw) sess { ud with last_activity_ts := now } := by
  have h1 : ({ ud with last_activity_ts := now } : UserData).gym_session = some sess := hs
  unfold on_details_message
  rw [if_neg hne]
  rw [if_neg (show ¬ ({ ud with last_activity_ts := now } : UserData).onboarding =
    some ONBOARDING_ASK_NAME by
      rw [show ({ ud with last_activity_ts := now } : UserData).onboarding = ud.onboarding from rfl,
        ho]
      simp)]
  rw [if_pos (show ({ ud with last_activity_ts := now } : UserData).pending_log_activity =
    some "Gym" from hp)]
  unfold _gym_text
  rw [show _ensure_gym_session today { ud with last_activity_ts := now } =
      { ud with last_activity_ts := now } by
    unfold _ensure_gym_session
    rw [h1]]
  rw [h1]
  exact if_neg hday

/-- C3: at the ask-sets step a text reply is accepted exactly when it
parses (Python `int`) to an integer between 1 and 20: an accepted reply
stores the integer in `sets` and advances the step to the set-line step
with the Set 1 prompt; any rejected reply (unparsable, or out of the
1..20 range) leaves the wizard — step tag and `sets` field — and the
session unchanged and only re-prompts. -/
theorem C3_ask_sets_validation (now : Nat) (today raw : String) (ud : UserData)
    (sess : GymSession) (wiz : GymWizard) (d e : String)
    (ho : ud.onboarding = none) (hp : ud.pending_log_activity = some "Gym")
    (hs : ud.gym_session = some sess)
    (hd : sess.day = some d) (hd1 : d ≠ DAY_CARDIO) (hd2 : d ≠ "")
    (he : ud.gym_equipment = some e) (he2 : e ≠ "")
    (hw : ud.gym_wizard = some wiz) (hstep : wiz.step = "ask_sets")
    (hne : pyStrip raw ≠ "") :
    (∀ n : Int, pyIntParse raw = some n → 1 ≤ n → n ≤ 20 →
      (on_details_message now today raw ud).1.gym_wizard =
        some { wiz with sets := some n.toNat, step := "ask_set_line" } ∧
      (on_details_message now today raw ud).1.gym_session = some sess ∧
      (on_details_message now today raw ud).2 =
        [plainMsg "Set 1 — reps @ weight?\nExample: `6@60` or `6 @ 60` or `6x60`"]) ∧
    ((∀ n : Int, pyIntParse raw = some n → n ≤ 0 ∨ 20 < n) →
      (on_details_message now today raw ud).1.gym_wizard = some wiz ∧
      (on_details_message now today raw ud).1.gym_session = some sess ∧
      (on_details_message now today raw ud).2 =
        [plainMsg "Please enter a valid number of sets (1-20)."]) := by
  have hday : sess.day ≠ some DAY_CARDIO := by
    rw [hd]
    intro hx
    exact hd1 (Option.some.inj hx)
  have hred := on_details_to_lift now today raw ud sess ho hp hs hday hne
  have hfal : ¬ (pyFalsy sess.day = true ∨
      pyFalsy ({ ud with last_activity_ts := now } : UserData).gym_equipment = true) := by
    rw [hd, show ({ ud with last_activity_ts := now } : UserData).gym_equipment = ud.gym_equipment
      from rfl, he]
    unfold pyFalsy
    simp [hd2, he2]
  have hw2 : ({ ud with last_activity_ts := now } : UserData).gym_wizard = some wiz := hw
  have hn1 : ¬ wiz.step = "ask_exercise_name" := by rw [hstep]; decide
  constructor
  · intro n hn h1 h20
    have hacc : ¬ (n ≤ 0 ∨ 20 < n) := by omega
    rw [hred]
    unfold _lift_text
    rw [if_neg hfal, hw2]
    dsimp only
    rw [if_neg hn1, if_pos hstep, pyIntParse_pyStrip, hn]
    dsimp only
    rw [if_neg hacc]
    exact ⟨rfl, hs, rfl⟩
  · intro hrej
    rw [hred]
    unfold _lift_text
    rw [if_neg hfal, hw2]
    dsimp only
    rw [if_neg hn1, if_pos hstep, pyIntParse_pyStrip]
    cases hpi : pyIntParse raw with
    | none => exact ⟨rfl, hs, rfl⟩
    | some n =>
      dsimp only
      rw [if_pos (hrej n hpi)]
      exact ⟨rfl, hs, rfl⟩

theorem C3_ask_sets_validation_witness :
    (on_details_message 0 "01-01-2026" "5" udC3w).1.gym_wizard =
      some { step := "ask_set_line", exercise := "Bench Press", sets := some 5 } ∧
    (on_details_message 0 "01-01-2026" "25" udC3w).1.gym_wizard = some wizC3w :=
  ⟨((C3_ask_sets_validation 0 "01-01-2026" "5" udC3w sessC3w wizC3w "Chest" "Dumbbell"
      rfl rfl rfl rfl (by decide) (by decide) rfl (by decide) rfl rfl (by decide)).1
      5 (by decide) (by decide) (by decide)).1,
   ((C3_ask_sets_validation 0 "01-01-2026" "25" udC3w sessC3w wizC3w "Chest" "Dumbbell"
      rfl rfl rfl rfl (by decide) (by decide) rfl (by decide) rfl rfl (by decide)).2
      (by
        intro n hn
        rw [show pyIntParse "25" = some (25 : Int) from by decide] at hn
        injection hn with h
        right
        omega)).1⟩

/-! ## Claim C6 -/

/-- Under the cardio-day state hypotheses, `on_details_message` reduces
to `_cardio_text` on the stripped text and the touched state. -/
theorem on_details_to_cardio (now : Nat) (today raw : String) (ud : UserData) (sess : GymSession)
    (ho : ud.onboarding = none) (hp : ud.pending_log_activity = some "Gym")
    (hs : ud.gym_session = some sess) (hday : sess.day = some DAY_CARDIO)
    (hne : pyStrip raw ≠ "") :
    on_details_message now today raw ud =
      _cardio_text (pyStrip raw) sess { ud with last_activity_ts := now } := by
  have h1 : ({ ud with last_activity_ts := now } : UserData).gym_session = some sess := hs
  unfold on_details_message
  rw [if_neg hne]
  rw [if_neg (show ¬ ({ ud with last_activity_ts := now } : UserData).onboarding =
    some ONBOARDING_ASK_NAME by
      rw [show ({ ud with last_activity_ts := now } : UserData).onboarding = ud.onboarding from rfl,
        ho]
      simp)]
  rw [if_pos (show ({ ud with last_activity_ts := now } : UserData).pending_log_activity =
    some "Gym" from hp)]
  unfold _gym_text
  rw [show _ensure_gym_session today { ud with last_activity_ts := now } =
      { ud with last_activity_ts := now } by
    unfold _ensure_gym_session
    rw [h1]]
  rw [h1]
  exact if_pos hday

/-- The concrete cardio scenario state reached by
Gym → Post-gym cardio → Incline → "10" → "6.5". -/
theorem C6_cardio_flow :
    (∀ today : String,
      (runEvents today [Ev.button CB_GYM, Ev.button CB_BODY_CARDIO, Ev.button CB_CARDIO_INCLINE,
        Ev.text "10", Ev.text "6.5"] initUD).gym_session =
        some { date := today, day := some DAY_CARDIO,
               entries := [Entry.cardio "Incline 10° @ 6.5" (some "Incline") (some "10") "6.5"] }) ∧
    (∀ (now : Nat) (today data : String) (ud : UserData) (sess : GymSession),
      ud.gym_session = some sess → sess.day = some DAY_CARDIO →
      (on_cardio_mode_choice now today data ud).1.cardio_wizard =
        some { step := if data = CB_CARDIO_INCLINE then "ask_degree" else "ask_speed",
               mode := some (if data = CB_CARDIO_INCLINE then "Incline" else "Flat"),
               degree := none, speed := none } ∧
      (on_cardio_mode_choice now today data ud).2 =
        [plainMsg (if data = CB_CARDIO_INCLINE then "Incline degree? (e.g. `10`)  \nType a number only."
                   else "Flat selected.\nWhat speed? (e.g. `6.0`, `10`)")]) ∧
    (∀ (now : Nat) (today raw : String) (ud : UserData) (sess : GymSession) (wiz : CardioWizard),
      ud.onboarding = none → ud.pending_log_activity = some "Gym" →
      ud.gym_session = some sess → sess.day = some DAY_CARDIO →
      ud.cardio_wizard = some wiz →
      (wiz.step = "ask_degree" ∨ wiz.step = "ask_speed") →
      pyStrip raw ≠ "" → _is_number_like raw = false →
      (on_details_message now today raw ud).1.cardio_wizard = some wiz ∧
      (on_details_message now today raw ud).1.gym_session = some sess ∧
      (on_details_message now today raw ud).2 =
        [plainMsg (if wiz.step = "ask_degree" then "Please enter a number for incline degree (e.g. `10`)."
                   else "Please enter a number for speed (e.g. `6.0`).")]) := by
  refine ⟨fun today => rfl, ?_, ?_⟩
  · intro now today data ud sess hs hday
    unfold on_cardio_mode_choice
    have h1 : _ensure_gym_session today { ud with last_activity_ts := now } =
        { ud with last_activity_ts := now } := by
      unfold _ensure_gym_session
      rw [show ({ ud with last_activity_ts := now } : UserData).gym_session = ud.gym_session
        from rfl, hs]
    dsimp only
    rw [h1]
    dsimp only
    rw [hs]
    dsimp only
    rw [if_neg (show ¬ ¬ sess.day = some DAY_CARDIO from fun h => h hday)]
    by_cases hdata : data = CB_CARDIO_INCLINE
    · rw [if_pos hdata, if_pos hdata, if_pos hdata]
      rw [if_pos (show ("Incline" : String) = "Incline" from rfl)]
      rw [if_pos (show ("Incline" : String) = "Incline" from rfl)]
      exact ⟨rfl, rfl⟩
    · rw [if_neg hdata, if_neg hdata, if_neg hdata]
      rw [if_neg (show ¬ ("Flat" : String) = "Incline" by decide)]
      rw [if_neg (show ¬ ("Flat" : String) = "Incline" by decide)]
      exact ⟨rfl, rfl⟩
  · intro now today raw ud sess wiz ho hp hs hday hcw hstep hne hnum
    have hred := on_details_to_cardio now today raw ud sess ho hp hs hday hne
    have hcw2 : ({ ud with last_activity_ts := now } : UserData).cardio_wizard = some wiz := hcw
    have hnum2 : ¬ _is_number_like (pyStrip raw) = true := by
      rw [_is_number_like_pyStrip, hnum]
      simp
    rw [hred]
    unfold _cardio_text
    rw [hcw2]
    dsimp only
    rcases hstep with hdeg | hspd
    · rw [if_neg (show ¬ wiz.step = "choose_mode" by rw [hdeg]; decide), if_pos hdeg,
        if_pos hnum2]
      exact ⟨rfl, hs, by rw [if_pos hdeg]⟩
    · rw [if_neg (show ¬ wiz.step = "choose_mode" by rw [hspd]; decide),
        if_neg (show ¬ wiz.step = "ask_degree" by rw [hspd]; decide), if_pos hspd,
        if_pos hnum2]
      exact ⟨rfl, hs, by rw [if_neg (show ¬ wiz.step = "ask_degree" by rw [hspd]; decide)]⟩

theorem C6_cardio_flow_witness :
    (on_cardio_mode_choice 0 "01-01-2026" CB_CARDIO_INCLINE udC6w).1.cardio_wizard =
      some { step := "ask_degree", mode := some "Incline", degree := none, speed := none } ∧
    (on_details_message 0 "01-01-2026" "abc" udC6w).1.cardio_wizard = some wizC6w :=
  ⟨(C6_cardio_flow.2.1 0 "01-01-2026" CB_CARDIO_INCLINE udC6w sessC6w rfl rfl).1,
   (C6_cardio_flow.2.2 0 "01-01-2026" "abc" udC6w sessC6w wizC6w rfl rfl rfl rfl rfl
     (Or.inl rfl) (by decide) (by decide)).1⟩

/-! ## Claim C4 -/

set_option maxHeartbeats 2000000 in
/-- C4: from an idle user, Gym → Chest → Dumbbell → "Bench Press" →
"2" → "6@60" → "5@60" appends exactly one lift entry whose compact label
is "2 x 6(60), 5(60)" (built by the `_format_compact` rule), for any
session date. -/
theorem C4_lift_scenario :
    (∀ today : String,
      (runEvents today [Ev.button CB_GYM, Ev.button CB_BODY_CHEST, Ev.button CB_EQ_DUMBBELL,
        Ev.text "Bench Press", Ev.text "2", Ev.text "6@60", Ev.text "5@60"] initUD).gym_session =
        some { date := today, day := some "Chest",
               entries := [Entry.lift "Dumbbell" "Bench Press" "2 x 6(60), 5(60)"] }) ∧
    _format_compact 2 [6, 5] ["60", "60"] = "2 x 6(60), 5(60)" :=
  ⟨fun today => rfl, by decide⟩

/-! ## Claim C8 -/

/-- C8 counterexample: the two-wizard state is reachable.  Tapping the
Post-gym cardio body-part button creates a cardio wizard; then tapping a
(still displayed) equipment button creates a lift wizard without
clearing the cardio one, so the user holds both WizardStates at once. -/
theorem C8_counterexample :
    (runEvents "01-01-2026" [Ev.button CB_BODY_CARDIO, Ev.button CB_EQ_DUMBBELL] initUD).cardio_wizard =
      some { step := "choose_mode" } ∧
    (runEvents "01-01-2026" [Ev.button CB_BODY_CARDIO, Ev.button CB_EQ_DUMBBELL] initUD).gym_wizard =
      some { step := "ask_exercise_name" } := by
  decide

/-- C8 (amended): the at-most-one-wizard invariant fails (the equipment
handler starts a lift wizard without clearing an in-progress cardio
wizard), but the `/log` half of the claim holds: `/log` always removes
both wizard keys without appending anything to the gym session or the
quick-log list (and without touching the session record at all). -/
theorem C8_log_discards_wizard (now : Nat) (ud : UserData) :
    (log_cmd now ud).1.gym_wizard = none ∧
    (log_cmd now ud).1.cardio_wizard = none ∧
    (log_cmd now ud).1.gym_session = ud.gym_session ∧
    (log_cmd now ud).1.logs = ud.logs :=
  ⟨rfl, rfl, rfl, rfl⟩

/-! ## Claim C5 -/

theorem on_details_empty (now : Nat) (today t : String) (ud : UserData)
    (hs : pyStrip t = "") :
    on_details_message now today t ud = ({ ud with last_activity_ts := now }, []) := by
  unfold on_details_message
  rw [if_pos hs]

theorem postfin_step (now : Nat) (today t : String) (ud : UserData)
    (h : PostFinalizeState ud) :
    (on_details_message now today t ud).1 = { ud with last_activity_ts := now } := by
  obtain ⟨ho, hp, ⟨sess, hs, hday⟩, he⟩ := h
  by_cases hs0 : pyStrip t = ""
  · rw [on_details_empty now today t ud hs0]
  · rw [on_details_to_lift now today t ud sess ho hp hs hday hs0]
    unfold _lift_text
    rw [if_pos (Or.inr (show pyFalsy ({ ud with last_activity_ts := now } : UserData).gym_equipment
      = true by
        rw [show ({ ud with last_activity_ts := now } : UserData).gym_equipment = ud.gym_equipment
          from rfl, he]
        rfl))]

theorem postfin_preserved (now : Nat) (ud : UserData) (h : PostFinalizeState ud) :
    PostFinalizeState { ud with last_activity_ts := now } := h

theorem foldTexts_cons (now : Nat) (today t : String) (rest : List String) (ud : UserData) :
    foldTexts now today (t :: rest) ud =
      foldTexts now today rest (on_details_message now today t ud).1 := rfl

theorem postfin_fold (now : Nat) (today : String) (ts : List String) :
    ∀ ud : UserData, PostFinalizeState ud →
      (foldTexts now today ts ud).gym_session = ud.gym_session ∧
      (foldTexts now today ts ud).gym_wizard = ud.gym_wizard ∧
      (foldTexts now today ts ud).gym_equipment = ud.gym_equipment := by
  induction ts with
  | nil => exact fun ud _ => ⟨rfl, rfl, rfl⟩
  | cons t rest ih =>
    intro ud h
    rw [foldTexts_cons, postfin_step now today t ud h]
    exact ih { ud with last_activity_ts := now } (postfin_preserved now ud h)

theorem setline_step_invalid (now : Nat) (today t : String) (ud : UserData) (sess : GymSession)
    (e ex : String) (n : Nat) (acc : List (Nat × String))
    (h : SetLineState ud sess e ex n acc) (hp0 : _parse_set_input t = none) :
    (on_details_message now today t ud).1 = { ud with last_activity_ts := now } := by
  obtain ⟨ho, hp, hs, ⟨d, hd, hd1, hd2⟩, he, he2, hw, hlen⟩ := h
  by_cases hs0 : pyStrip t = ""
  · rw [on_details_empty now today t ud hs0]
  · have hday : sess.day ≠ some DAY_CARDIO := by
      rw [hd]
      intro hx
      exact hd1 (Option.some.inj hx)
    rw [on_details_to_lift now today t ud sess ho hp hs hday hs0]
    unfold _lift_text
    have hfal : ¬ (pyFalsy sess.day = true ∨
        pyFalsy ({ ud with last_activity_ts := now } : UserData).gym_equipment = true) := by
      rw [hd, show ({ ud with last_activity_ts := now } : UserData).gym_equipment =
        ud.gym_equipment from rfl, he]
      unfold pyFalsy
      simp [hd2, he2]
    have hw2 : ({ ud with last_activity_ts := now } : UserData).gym_wizard =
      some (GymWizard.mk "ask_set_line" ex (some n) (acc.map Prod.fst) (acc.map Prod.snd)) := hw
    rw [if_neg hfal, hw2]
    dsimp only
    rw [if_neg (show ¬ ("ask_set_line" : String) = "ask_exercise_name" by decide),
      if_neg (show ¬ ("ask_set_line" : String) = "ask_sets" by decide),
      if_pos (show ("ask_set_line" : String) = "ask_set_line" from rfl),
      _parse_set_input_pyStrip, hp0]

theorem setline_step_valid (now : Nat) (today t : String) (ud : UserData) (sess : GymSession)
    (e ex : String) (n : Nat) (acc : List (Nat × String)) (r : Nat) (w : String)
    (h : SetLineState ud sess e ex n acc) (hp1 : _parse_set_input t = some (r, w)) :
    (on_details_message now today t ud).1 =
      (if acc.length + 1 < n then
        { ud with last_activity_ts := now,
                  gym_wizard := some (GymWizard.mk "ask_set_line" ex (some n)
                    (acc.map Prod.fst ++ [r]) (acc.map Prod.snd ++ [w])) }
      else
        { ud with last_activity_ts := now,
                  gym_session := some { sess with entries := sess.entries ++
                    [Entry.lift e ex (_format_compact n (acc.map Prod.fst ++ [r])
                      (acc.map Prod.snd ++ [w]))] },
                  gym_wizard := none, gym_equipment := none }) := by
  obtain ⟨ho, hp, hs, ⟨d, hd, hd1, hd2⟩, he, he2, hw, hlen⟩ := h
  have hs0 : pyStrip t ≠ "" := by
    intro hx
    rw [_parse_set_input_of_strip_empty t hx] at hp1
    exact absurd hp1 (by simp)
  have hday : sess.day ≠ some DAY_CARDIO := by
    rw [hd]
    intro hx
    exact hd1 (Option.some.inj hx)
  rw [on_details_to_lift now today t ud sess ho hp hs hday hs0]
  unfold _lift_text
  have hfal : ¬ (pyFalsy sess.day = true ∨
      pyFalsy ({ ud with last_activity_ts := now } : UserData).gym_equipment = true) := by
    rw [hd, show ({ ud with last_activity_ts := now } : UserData).gym_equipment =
      ud.gym_equipment from rfl, he]
    unfold pyFalsy
    simp [hd2, he2]
  have hw2 : ({ ud with last_activity_ts := now } : UserData).gym_wizard =
    some (GymWizard.mk "ask_set_line" ex (some n) (acc.map Prod.fst) (acc.map Prod.snd)) := hw
  have he3 : ({ ud with last_activity_ts := now } : UserData).gym_equipment = some e := he
  rw [if_neg hfal, hw2]
  dsimp only
  rw [if_neg (show ¬ ("ask_set_line" : String) = "ask_exercise_name" by decide),
    if_neg (show ¬ ("ask_set_line" : String) = "ask_sets" by decide),
    if_pos (show ("ask_set_line" : String) = "ask_set_line" from rfl),
    _parse_set_input_pyStrip, hp1]
  dsimp only
  rw [show (List.map Prod.fst acc ++ [r]).length = acc.length + 1 by simp]
  simp only [Option.getD_some]
  by_cases hc : acc.length + 1 < n
  · rw [if_pos hc, if_pos hc]
  · rw [if_neg hc, if_neg hc, he]
    rfl

theorem C5_run_aux (now : Nat) (today : String) (ts : List String) :
    ∀ (ud : UserData) (sess : GymSession) (e ex : String) (n : Nat) (acc : List (Nat × String)),
      SetLineState ud sess e ex n acc →
      (((acc ++ ts.filterMap _parse_set_input).length < n →
        (foldTexts now today ts ud).gym_wizard =
          some (GymWizard.mk "ask_set_line" ex (some n)
            ((acc ++ ts.filterMap _parse_set_input).map Prod.fst)
            ((acc ++ ts.filterMap _parse_set_input).map Prod.snd)) ∧
        (foldTexts now today ts ud).gym_session = some sess ∧
        (foldTexts now today ts ud).gym_equipment = some e) ∧
       (n ≤ (acc ++ ts.filterMap _parse_set_input).length →
        (foldTexts now today ts ud).gym_session =
          some { sess with entries := sess.entries ++
            [Entry.lift e ex (_format_compact n
              (((acc ++ ts.filterMap _parse_set_input).take n).map Prod.fst)
              (((acc ++ ts.filterMap _parse_set_input).take n).map Prod.snd))] } ∧
        (foldTexts now today ts ud).gym_wizard = none ∧
        (foldTexts now today ts ud).gym_equipment = none)) := by
  induction ts with
  | nil =>
    intro ud sess e ex n acc h
    obtain ⟨ho, hp, hs, hdEx, he, he2, hw, hlen⟩ := h
    simp only [List.filterMap_nil, List.append_nil]
    exact ⟨fun _ => ⟨hw, hs, he⟩, fun hge => absurd hge (by omega)⟩
  | cons t rest ih =>
    intro ud sess e ex n acc h
    obtain ⟨ho, hp, hs, hdEx, he, he2, hw, hlen⟩ := id h
    cases hpt : _parse_set_input t with
    | none =>
      have hstep := setline_step_invalid now today t ud sess e ex n acc h hpt
      rw [foldTexts_cons, hstep]
      simp only [List.filterMap_cons, hpt]
      exact ih { ud with last_activity_ts := now } sess e ex n acc h
    | some rw0 =>
      obtain ⟨r, w⟩ := rw0
      have hstep := setline_step_valid now today t ud sess e ex n acc r w h hpt
      rw [foldTexts_cons, hstep]
      simp only [List.filterMap_cons, hpt]
      by_cases hc : acc.length + 1 < n
      · rw [if_pos hc]
        have h2 : SetLineState
            { ud with last_activity_ts := now,
                      gym_wizard := some (GymWizard.mk "ask_set_line" ex (some n)
                        (acc.map Prod.fst ++ [r]) (acc.map Prod.snd ++ [w])) }
            sess e ex n (acc ++ [(r, w)]) := by
          refine ⟨ho, hp, hs, hdEx, he, he2, ?_, by simp; omega⟩
          show some _ = some _
          simp [List.map_append]
        have hrec := ih _ sess e ex n (acc ++ [(r, w)]) h2
        rw [show acc ++ (r, w) :: rest.filterMap _parse_set_input =
          (acc ++ [(r, w)]) ++ rest.filterMap _parse_set_input by simp]
        exact hrec
      · rw [if_neg hc]
        have hday2 : ({ sess with entries := sess.entries ++
            [Entry.lift e ex (_format_compact n (acc.map Prod.fst ++ [r])
              (acc.map Prod.snd ++ [w]))] } : GymSession).day ≠ some DAY_CARDIO := by
          obtain ⟨d, hd, hd1, _⟩ := hdEx
          show sess.day ≠ some DAY_CARDIO
          rw [hd]
          intro hx
          exact hd1 (Option.some.inj hx)
        have hpf : PostFinalizeState
            { ud with last_activity_ts := now,
                      gym_session := some { sess with entries := sess.entries ++
                        [Entry.lift e ex (_format_compact n (acc.map Prod.fst ++ [r])
                          (acc.map Prod.snd ++ [w]))] },
                      gym_wizard := none, gym_equipment := none } :=
          ⟨ho, hp, ⟨_, rfl, hday2⟩, rfl⟩
        obtain ⟨hfs, hfw, hfe⟩ := postfin_fold now today rest _ hpf
        constructor
        · intro hlt
          exfalso
          simp only [List.length_append, List.length_cons] at hlt
          omega
        · intro hge
          have htake : (acc ++ (r, w) :: rest.filterMap _parse_set_input).take n =
              acc ++ [(r, w)] := by
            have hn : n = (acc ++ [(r, w)]).length := by
              simp only [List.length_append, List.length_singleton]
              omega
            rw [show acc ++ (r, w) :: rest.filterMap _parse_set_input =
              (acc ++ [(r, w)]) ++ rest.filterMap _parse_set_input by simp, hn, List.take_left]
          refine ⟨?_, ?_, ?_⟩
          · rw [hfs, htake]
            show some _ = some _
            simp [List.map_append]
          · rw [hfw]
          · rw [hfe]

/-- C5: at the set-line step, an invalid reply appends nothing (wizard
and session unchanged); a valid reply appends exactly one reps/weight
pair, finalizing the entry exactly when the n-th pair arrives; and over
any whole reply sequence from a fresh set-line wizard, the wizard holds
exactly the parsed pairs in arrival order while fewer than n replies
parsed, and exactly one lift entry (built from the first n parsed pairs,
in order) is appended once n replies have parsed. -/
theorem C5_set_lines_invariant (now : Nat) (today : String) :
    (∀ (t : String) (ud : UserData) (sess : GymSession) (e ex : String) (n : Nat)
       (acc : List (Nat × String)), SetLineState ud sess e ex n acc →
       _parse_set_input t = none →
       (on_details_message now today t ud).1.gym_wizard = ud.gym_wizard ∧
       (on_details_message now today t ud).1.gym_session = some sess) ∧
    (∀ (t : String) (ud : UserData) (sess : GymSession) (e ex : String) (n : Nat)
       (acc : List (Nat × String)) (r : Nat) (w : String), SetLineState ud sess e ex n acc →
       _parse_set_input t = some (r, w) →
       (acc.length + 1 < n →
         (on_details_message now today t ud).1.gym_wizard =
           some (GymWizard.mk "ask_set_line" ex (some n) (acc.map Prod.fst ++ [r])
             (acc.map Prod.snd ++ [w])) ∧
         (on_details_message now today t ud).1.gym_session = some sess) ∧
       (acc.length + 1 = n →
         (on_details_message now today t ud).1.gym_session =
           some { sess with entries := sess.entries ++
             [Entry.lift e ex (_format_compact n (acc.map Prod.fst ++ [r])
               (acc.map Prod.snd ++ [w]))] } ∧
         (on_details_message now today t ud).1.gym_wizard = none)) ∧
    (∀ (ts : List String) (ud : UserData) (sess : GymSession) (e ex : String) (n : Nat),
       SetLineState ud sess e ex n [] →
       ((ts.filterMap _parse_set_input).length < n →
         (foldTexts now today ts ud).gym_wizard =
           some (GymWizard.mk "ask_set_line" ex (some n)
             ((ts.filterMap _parse_set_input).map Prod.fst)
             ((ts.filterMap _parse_set_input).map Prod.snd)) ∧
         (foldTexts now today ts ud).gym_session = some sess) ∧
       (n ≤ (ts.filterMap _parse_set_input).length →
         (foldTexts now today ts ud).gym_session =
           some { sess with entries := sess.entries ++
             [Entry.lift e ex (_format_compact n
               (((ts.filterMap _parse_set_input).take n).map Prod.fst)
               (((ts.filterMap _parse_set_input).take n).map Prod.snd))] } ∧
         (foldTexts now today ts ud).gym_wizard = none)) := by
  refine ⟨?_, ?_, ?_⟩
  · intro t ud sess e ex n acc h hpt
    obtain ⟨ho, hp, hs, hdEx, he, he2, hw, hlen⟩ := id h
    rw [setline_step_invalid now today t ud sess e ex n acc h hpt]
    exact ⟨rfl, hs⟩
  · intro t ud sess e ex n acc r w h hpt
    obtain ⟨ho, hp, hs, hdEx, he, he2, hw, hlen⟩ := id h
    rw [setline_step_valid now today t ud sess e ex n acc r w h hpt]
    constructor
    · intro hc
      rw [if_pos hc]
      exact ⟨rfl, hs⟩
    · intro hc
      rw [if_neg (show ¬ acc.length + 1 < n by omega)]
      exact ⟨rfl, rfl⟩
  · intro ts ud sess e ex n h
    have := C5_run_aux now today ts ud sess e ex n [] h
    simp only [List.nil_append] at this
    exact ⟨fun hlt => ⟨(this.1 hlt).1, (this.1 hlt).2.1⟩,
      fun hge => ⟨(this.2 hge).1, (this.2 hge).2.1⟩⟩

theorem C5_set_lines_invariant_witness :
    (foldTexts 0 "01-01-2026" ["6@60", "oops", "5@60"] udC5w).gym_session =
      some { sessC5w with entries := sessC5w.entries ++
        [Entry.lift "Dumbbell" "Bench Press" (_format_compact 2
          (((["6@60", "oops", "5@60"].filterMap _parse_set_input).take 2).map Prod.fst)
          (((["6@60", "oops", "5@60"].filterMap _parse_set_input).take 2).map Prod.snd))] } ∧
    (foldTexts 0 "01-01-2026" ["6@60", "oops", "5@60"] udC5w).gym_wizard = none :=
  ((C5_set_lines_invariant 0 "01-01-2026").2.2 ["6@60", "oops", "5@60"] udC5w sessC5w
    "Dumbbell" "Bench Press" 2
    ⟨rfl, rfl, rfl, ⟨"Chest", rfl, by decide, by decide⟩, rfl, by decide, rfl, by decide⟩).2
    (by decide)
